import Mathlib

/-
Verification development for the Farm Drone Inspection Simulator backend.

Shallow embedding of:
  - the boustrophedon sweep waypoint planner, get_sweep_waypoints, from
    src/backend/app.py (lines 222-256) and src/backend/drone_sweeper.py
    (lines 341-370);
  - the cascaded DSL PID flight controller from src/backend/DSLPIDControl.py;
  - the mission tick loop of run_drone_simulation from src/backend/app.py
    (lines 260-414).

Floating-point arithmetic of the source is modelled over the exact reals
(controller, mission loop) and over the rationals (planner, whose arithmetic
on its inputs is purely rational).  External library calls (pybullet and
scipy quaternion, rotation-matrix and Euler conversions) are modelled by
their documented closed-form definitions.
-/

set_option maxHeartbeats 1000000

-- ==================== Waypoint planner (rational arithmetic) ====================

/-- A 3D waypoint of the planner, with rational coordinates. -/
abbrev Q3 : Type := ℚ × ℚ × ℚ

/-- Embedding of the row-sweep while loop shared verbatim by
get_sweep_waypoints in src/backend/app.py (lines 234-250) and
src/backend/drone_sweeper.py (lines 350-365):

  while current_y <= y_max:
      x_start = x_min if going_right else x_max
      x_end   = x_max if going_right else x_min
      waypoints.append([x_start, current_y, z_hover])
      waypoints.append([x_end,   current_y, z_hover])
      current_y += sweep_step
      if current_y <= y_max + sweep_step:
          waypoints.append([x_end, current_y, z_hover])
      going_right = not going_right

The source loop does not terminate when sweep_step is not positive; the
embedding adds the guard 0 < sweep_step and returns [] in that case.  All
theorems about the planner assume 0 < sweep_step. -/
def sweepRows (x_min x_max y_max sweep_step z_hover current_y : ℚ)
    (going_right : Bool) : List Q3 :=
  if h : 0 < sweep_step ∧ current_y ≤ y_max then
    ((if going_right then x_min else x_max), current_y, z_hover) ::
    ((if going_right then x_max else x_min), current_y, z_hover) ::
    ((if current_y + sweep_step ≤ y_max + sweep_step then
        [((if going_right then x_max else x_min), current_y + sweep_step, z_hover)]
      else []) ++
      sweepRows x_min x_max y_max sweep_step z_hover (current_y + sweep_step)
        (!going_right))
  else []
termination_by (⌊(y_max - current_y) / sweep_step⌋ + 1).toNat
decreasing_by
  have hs : 0 < sweep_step := h.1
  have hc : current_y ≤ y_max := h.2
  have hs0 : sweep_step ≠ 0 := ne_of_gt hs
  have key : (y_max - (current_y + sweep_step)) / sweep_step
      = (y_max - current_y) / sweep_step - 1 := by
    field_simp
    ring
  rw [key, Int.floor_sub_one]
  have h0 : (0 : ℚ) ≤ (y_max - current_y) / sweep_step :=
    div_nonneg (by linarith) (le_of_lt hs)
  have h1 : (0 : ℤ) ≤ ⌊(y_max - current_y) / sweep_step⌋ := Int.floor_nonneg.mpr h0
  omega

/-- get_sweep_waypoints from src/backend/app.py (lines 222-256): takeoff above
home (0,0) at z_hover, move to the field min corner, boustrophedon rows,
return to home at z_hover, land at z = 0.05. -/
def get_sweep_waypoints (field_min field_max : ℚ × ℚ)
    (z_hover sweep_step : ℚ) : List Q3 :=
  ((0, 0, z_hover) : Q3) :: ((field_min.1, field_min.2, z_hover) : Q3) ::
    (sweepRows field_min.1 field_max.1 field_max.2 sweep_step z_hover
        field_min.2 true ++
      [((0, 0, z_hover) : Q3), ((0, 0, 0.05) : Q3)])

/-- get_sweep_waypoints from src/backend/drone_sweeper.py (lines 341-370):
identical row loop, but takeoff, return and landing are above start_pos. -/
def get_sweep_waypoints_sweeper (start_pos : Q3) (field_min field_max : ℚ × ℚ)
    (z_hover sweep_step : ℚ) : List Q3 :=
  ((start_pos.1, start_pos.2.1, z_hover) : Q3) ::
    ((field_min.1, field_min.2, z_hover) : Q3) ::
    (sweepRows field_min.1 field_max.1 field_max.2 sweep_step z_hover
        field_min.2 true ++
      [((start_pos.1, start_pos.2.1, z_hover) : Q3),
       ((start_pos.1, start_pos.2.1, 0.05) : Q3)])

/-- One unfolding of the row loop when the loop guard holds: the body always
appends the two row endpoints and the transition point (the transition
condition is equivalent to the loop guard, hence always true inside the
body). -/
theorem sweepRows_cons (x_min x_max y_max sweep_step z_hover c : ℚ)
    (dir : Bool) (hs : 0 < sweep_step) (hc : c ≤ y_max) :
    sweepRows x_min x_max y_max sweep_step z_hover c dir =
      ((if dir then x_min else x_max), c, z_hover) ::
      ((if dir then x_max else x_min), c, z_hover) ::
      ((if dir then x_max else x_min), c + sweep_step, z_hover) ::
      sweepRows x_min x_max y_max sweep_step z_hover (c + sweep_step) (!dir) := by
  rw [sweepRows]
  rw [dif_pos ⟨hs, hc⟩, if_pos (by linarith : c + sweep_step ≤ y_max + sweep_step)]
  simp

/-- The row loop produces nothing once the loop guard fails. -/
theorem sweepRows_nil (x_min x_max y_max sweep_step z_hover c : ℚ)
    (dir : Bool) (hc : ¬ (0 < sweep_step ∧ c ≤ y_max)) :
    sweepRows x_min x_max y_max sweep_step z_hover c dir = [] := by
  rw [sweepRows, dif_neg hc]

/-- Length of the row loop output: each iteration appends exactly 3 points
(the transition-point condition inside the body is always true), and with a
positive step the loop runs floor((y_max - c)/step) + 1 times. -/
theorem sweepRows_length (x_min x_max y_max sweep_step z_hover : ℚ) :
    ∀ (n : ℕ) (c : ℚ) (dir : Bool), 0 < sweep_step → c ≤ y_max →
      (⌊(y_max - c) / sweep_step⌋).toNat = n →
      (sweepRows x_min x_max y_max sweep_step z_hover c dir).length = 3 * (n + 1) := by
  intro n
  induction n with
  | zero =>
    intro c dir hs hc hn
    have h0 : (0 : ℚ) ≤ (y_max - c) / sweep_step :=
      div_nonneg (by linarith) (le_of_lt hs)
    have hf0 : ⌊(y_max - c) / sweep_step⌋ = 0 := by
      have := Int.floor_nonneg.mpr h0
      omega
    have hlt : (y_max - c) / sweep_step < 1 := by
      have := Int.lt_floor_add_one ((y_max - c) / sweep_step)
      rw [hf0] at this
      simpa using this
    have hnext : ¬ (0 < sweep_step ∧ c + sweep_step ≤ y_max) := by
      rintro ⟨-, hcs⟩
      have : y_max - c < sweep_step := by
        have := (div_lt_one hs).mp hlt
        linarith
      linarith
    rw [sweepRows_cons _ _ _ _ _ _ _ hs hc, sweepRows_nil _ _ _ _ _ _ _ hnext]
    simp
  | succ n ih =>
    intro c dir hs hc hn
    have h1 : (1 : ℤ) ≤ ⌊(y_max - c) / sweep_step⌋ := by omega
    have h1q : (1 : ℚ) ≤ (y_max - c) / sweep_step := by
      exact_mod_cast Int.le_floor.mp h1
    have hc2 : c + sweep_step ≤ y_max := by
      have := (one_le_div hs).mp h1q
      linarith
    have key : (y_max - (c + sweep_step)) / sweep_step
        = (y_max - c) / sweep_step - 1 := by
      field_simp
      ring
    have hn2 : (⌊(y_max - (c + sweep_step)) / sweep_step⌋).toNat = n := by
      rw [key, Int.floor_sub_one]
      omega
    rw [sweepRows_cons _ _ _ _ _ _ _ hs hc]
    simp only [List.length_cons]
    rw [ih (c + sweep_step) (!dir) hs hc2 hn2]
    ring

/-- Closed-form length of the app.py planner output. -/
theorem get_sweep_waypoints_length (field_min field_max : ℚ × ℚ)
    (z_hover sweep_step : ℚ) (hy : field_min.2 ≤ field_max.2)
    (hs : 0 < sweep_step) :
    (get_sweep_waypoints field_min field_max z_hover sweep_step).length
      = 4 + 3 * ((⌊(field_max.2 - field_min.2) / sweep_step⌋).toNat + 1) := by
  unfold get_sweep_waypoints
  simp only [List.length_cons, List.length_append]
  rw [sweepRows_length field_min.1 field_max.1 field_max.2 sweep_step z_hover
    (⌊(field_max.2 - field_min.2) / sweep_step⌋).toNat field_min.2 true hs hy rfl]
  simp
  ring

/-- Claim C7: the waypoint planner called with field min corner (-2,-2), max
corner (2,2), hover altitude 1.0 and sweep step 0.75 returns a sequence whose
first element is the vertical takeoff point above home (0,0,1), whose last
element is the low-altitude landing point (0,0,0.05), and which has strictly
more than 2 intermediate points between them (it has 20). -/
theorem planner_concrete_shape :
    (get_sweep_waypoints (-2, -2) (2, 2) 1 0.75).head? = some ((0 : ℚ), 0, 1) ∧
    (get_sweep_waypoints (-2, -2) (2, 2) 1 0.75).getLast? = some ((0 : ℚ), 0, 0.05) ∧
    2 < (get_sweep_waypoints (-2, -2) (2, 2) 1 0.75).length - 2 := by
  have hlen : (get_sweep_waypoints (-2, -2) (2, 2) 1 0.75).length = 22 := by
    rw [get_sweep_waypoints_length (-2, -2) (2, 2) 1 0.75 (by norm_num) (by norm_num)]
    have : ⌊((2 : ℚ) - -2) / 0.75⌋ = 5 := by
      rw [Int.floor_eq_iff]
      norm_num
    rw [this]
    decide
  refine ⟨rfl, ?_, by omega⟩
  unfold get_sweep_waypoints
  rw [show ((0, 0, 1) : Q3) :: (((-2 : ℚ), -2, 1) : Q3) ::
      (sweepRows (-2) 2 2 0.75 1 (-2) true ++ [((0, 0, 1) : Q3), ((0, 0, 0.05) : Q3)])
      = (((0, 0, 1) : Q3) :: (((-2 : ℚ), -2, 1) : Q3) ::
          sweepRows (-2) 2 2 0.75 1 (-2) true) ++
        ((0, 0, 1) : Q3) :: [((0, 0, 0.05) : Q3)] from by simp]
  rw [List.getLast?_append_cons]
  rfl

/-- Claim C8: for every pair of field corners with min_y at most max_y and
every positive sweep step, the planner terminates and produces a finite
ordered sequence of 3D points, of length exactly
4 + 3 * (floor((max_y - min_y)/step) + 1).  (Termination of the row loop is
established by the well-founded recursion defining sweepRows.) -/
theorem planner_terminates_with_finite_length (field_min field_max : ℚ × ℚ)
    (z_hover sweep_step : ℚ) (hy : field_min.2 ≤ field_max.2)
    (hs : 0 < sweep_step) :
    (get_sweep_waypoints field_min field_max z_hover sweep_step).length
      = 4 + 3 * ((⌊(field_max.2 - field_min.2) / sweep_step⌋).toNat + 1) :=
  get_sweep_waypoints_length field_min field_max z_hover sweep_step hy hs

/-- Witness for claim C8 at the concrete mission parameters of app.py. -/
theorem planner_terminates_with_finite_length_witness :
    (get_sweep_waypoints (-2, -2) (2, 2) 1 0.75).length
      = 4 + 3 * ((⌊((2 : ℚ) - -2) / 0.75⌋).toNat + 1) :=
  planner_terminates_with_finite_length (-2, -2) (2, 2) 1 0.75
    (by norm_num) (by norm_num)

/-- Claim C9: with min corner componentwise at most max corner and a positive
step, the planner emits consecutive duplicate waypoints: the
move-to-field-min-corner waypoint is immediately followed by an identical
first-row start point, and each row-transition waypoint (for a row that has a
successor row) is immediately followed by an identical start point of the
next row. -/
theorem planner_consecutive_duplicates (field_min field_max : ℚ × ℚ)
    (z_hover sweep_step : ℚ) (hx : field_min.1 ≤ field_max.1)
    (hy : field_min.2 ≤ field_max.2) (hs : 0 < sweep_step) :
    (∃ rest, get_sweep_waypoints field_min field_max z_hover sweep_step =
      ((0, 0, z_hover) : Q3) :: ((field_min.1, field_min.2, z_hover) : Q3) ::
      ((field_min.1, field_min.2, z_hover) : Q3) :: rest) ∧
    (∀ (c : ℚ) (dir : Bool), c ≤ field_max.2 → c + sweep_step ≤ field_max.2 →
      ∃ rest, sweepRows field_min.1 field_max.1 field_max.2 sweep_step z_hover c dir =
        ((if dir then field_min.1 else field_max.1), c, z_hover) ::
        ((if dir then field_max.1 else field_min.1), c, z_hover) ::
        ((if dir then field_max.1 else field_min.1), c + sweep_step, z_hover) ::
        ((if dir then field_max.1 else field_min.1), c + sweep_step, z_hover) :: rest) := by
  constructor
  · refine ⟨((field_max.1, field_min.2, z_hover) : Q3) ::
      ((field_max.1, field_min.2 + sweep_step, z_hover) : Q3) ::
      (sweepRows field_min.1 field_max.1 field_max.2 sweep_step z_hover
          (field_min.2 + sweep_step) false ++
        [((0, 0, z_hover) : Q3), ((0, 0, 0.05) : Q3)]), ?_⟩
    unfold get_sweep_waypoints
    rw [sweepRows_cons _ _ _ _ _ _ _ hs hy]
    simp [List.cons_append]
  · intro c dir hcy hcs
    cases dir
    · refine ⟨((field_max.1, c + sweep_step, z_hover) : Q3) ::
        ((field_max.1, c + sweep_step + sweep_step, z_hover) : Q3) ::
        sweepRows field_min.1 field_max.1 field_max.2 sweep_step z_hover
          (c + sweep_step + sweep_step) false, ?_⟩
      rw [sweepRows_cons _ _ _ _ _ _ _ hs hcy, sweepRows_cons _ _ _ _ _ _ _ hs hcs]
      simp
    · refine ⟨((field_min.1, c + sweep_step, z_hover) : Q3) ::
        ((field_min.1, c + sweep_step + sweep_step, z_hover) : Q3) ::
        sweepRows field_min.1 field_max.1 field_max.2 sweep_step z_hover
          (c + sweep_step + sweep_step) true, ?_⟩
      rw [sweepRows_cons _ _ _ _ _ _ _ hs hcy, sweepRows_cons _ _ _ _ _ _ _ hs hcs]
      simp

/-- Witness for claim C9 at the concrete mission parameters of app.py. -/
theorem planner_consecutive_duplicates_witness :
    (∃ rest, get_sweep_waypoints (-2, -2) (2, 2) 1 0.75 =
      ((0, 0, 1) : Q3) :: (((-2 : ℚ), -2, 1) : Q3) ::
      (((-2 : ℚ), -2, 1) : Q3) :: rest) ∧
    (∀ (c : ℚ) (dir : Bool), c ≤ 2 → c + 0.75 ≤ 2 →
      ∃ rest, sweepRows (-2) 2 2 0.75 1 c dir =
        ((if dir then (-2 : ℚ) else 2), c, 1) ::
        ((if dir then (2 : ℚ) else -2), c, 1) ::
        ((if dir then (2 : ℚ) else -2), c + 0.75, 1) ::
        ((if dir then (2 : ℚ) else -2), c + 0.75, 1) :: rest) :=
  planner_consecutive_duplicates (-2, -2) (2, 2) 1 0.75
    (by norm_num) (by norm_num) (by norm_num)

/-- The row loop always emits a final transition point one step beyond the
last row, whose y-coordinate exceeds y_max. -/
theorem sweepRows_overshoot (x_min x_max y_max sweep_step z_hover : ℚ) :
    ∀ (n : ℕ) (c : ℚ) (dir : Bool), 0 < sweep_step → c ≤ y_max →
      (⌊(y_max - c) / sweep_step⌋).toNat = n →
      ∃ k : ℕ, c + k * sweep_step ≤ y_max ∧
        y_max < c + k * sweep_step + sweep_step ∧
        ∃ x : ℚ, (x, c + k * sweep_step + sweep_step, z_hover) ∈
          sweepRows x_min x_max y_max sweep_step z_hover c dir := by
  intro n
  induction n with
  | zero =>
    intro c dir hs hc hn
    have h0 : (0 : ℚ) ≤ (y_max - c) / sweep_step :=
      div_nonneg (by linarith) (le_of_lt hs)
    have hf0 : ⌊(y_max - c) / sweep_step⌋ = 0 := by
      have := Int.floor_nonneg.mpr h0
      omega
    have hlt : (y_max - c) / sweep_step < 1 := by
      have := Int.lt_floor_add_one ((y_max - c) / sweep_step)
      rw [hf0] at this
      simpa using this
    have hover : y_max < c + sweep_step := by
      have := (div_lt_one hs).mp hlt
      linarith
    refine ⟨0, by simpa using hc, by simpa using hover,
      (if dir then x_max else x_min), ?_⟩
    rw [sweepRows_cons _ _ _ _ _ _ _ hs hc]
    simp
  | succ n ih =>
    intro c dir hs hc hn
    have h1 : (1 : ℤ) ≤ ⌊(y_max - c) / sweep_step⌋ := by omega
    have h1q : (1 : ℚ) ≤ (y_max - c) / sweep_step := by
      exact_mod_cast Int.le_floor.mp h1
    have hc2 : c + sweep_step ≤ y_max := by
      have := (one_le_div hs).mp h1q
      linarith
    have key : (y_max - (c + sweep_step)) / sweep_step
        = (y_max - c) / sweep_step - 1 := by
      field_simp
      ring
    have hn2 : (⌊(y_max - (c + sweep_step)) / sweep_step⌋).toNat = n := by
      rw [key, Int.floor_sub_one]
      omega
    obtain ⟨k, hk1, hk2, x, hmem⟩ := ih (c + sweep_step) (!dir) hs hc2 hn2
    refine ⟨k + 1, by push_cast; linarith, by push_cast; linarith, x, ?_⟩
    rw [sweepRows_cons _ _ _ _ _ _ _ hs hc]
    have hkey : c + (k + 1 : ℕ) * sweep_step + sweep_step
        = c + sweep_step + (k : ℕ) * sweep_step + sweep_step := by
      push_cast
      ring
    rw [hkey]
    simp only [List.mem_cons]
    right; right; right
    exact hmem

/-- Claim C10: with min_y at most max_y and a positive step, the planner
output contains a row-transition waypoint whose y-coordinate equals the last
row y plus the sweep step, which is strictly greater than max_y: the planned
path includes a point outside the field y-bounds after the final row. -/
theorem planner_overshoots_field (field_min field_max : ℚ × ℚ)
    (z_hover sweep_step : ℚ) (hy : field_min.2 ≤ field_max.2)
    (hs : 0 < sweep_step) :
    ∃ k : ℕ, field_min.2 + k * sweep_step ≤ field_max.2 ∧
      field_max.2 < field_min.2 + k * sweep_step + sweep_step ∧
      ∃ x : ℚ, (x, field_min.2 + k * sweep_step + sweep_step, z_hover) ∈
        get_sweep_waypoints field_min field_max z_hover sweep_step := by
  obtain ⟨k, hk1, hk2, x, hmem⟩ := sweepRows_overshoot field_min.1 field_max.1
    field_max.2 sweep_step z_hover (⌊(field_max.2 - field_min.2) / sweep_step⌋).toNat
    field_min.2 true hs hy rfl
  refine ⟨k, hk1, hk2, x, ?_⟩
  unfold get_sweep_waypoints
  simp only [List.mem_cons, List.mem_append]
  right; right; left
  exact hmem

/-- Witness for claim C10 at the concrete mission parameters of app.py. -/
theorem planner_overshoots_field_witness :
    ∃ k : ℕ, (-2 : ℚ) + (k : ℚ) * 0.75 ≤ 2 ∧
      (2 : ℚ) < -2 + (k : ℚ) * 0.75 + 0.75 ∧
      ∃ x : ℚ, (x, -2 + (k : ℚ) * 0.75 + 0.75, (1 : ℚ)) ∈
        get_sweep_waypoints (-2, -2) (2, 2) 1 0.75 :=
  planner_overshoots_field (-2, -2) (2, 2) 1 0.75 (by norm_num) (by norm_num)

-- ==================== Cascaded PID controller (real arithmetic) ====================

noncomputable section

/-- A 3-vector of reals (positions, velocities, Euler angles, gains). -/
abbrev V3 : Type := ℝ × ℝ × ℝ

/-- A 4-vector of reals (quaternions as (x,y,z,w), per-motor PWM and RPM). -/
abbrev V4 : Type := ℝ × ℝ × ℝ × ℝ

/-- A 3x3 matrix of reals, stored as three rows. -/
abbrev Mat3 : Type := V3 × V3 × V3

/-- Componentwise vector addition. -/
def vadd3 (a b : V3) : V3 := (a.1 + b.1, a.2.1 + b.2.1, a.2.2 + b.2.2)

/-- Componentwise vector subtraction. -/
def vsub3 (a b : V3) : V3 := (a.1 - b.1, a.2.1 - b.2.1, a.2.2 - b.2.2)

/-- Componentwise vector negation. -/
def vneg3 (a : V3) : V3 := (-a.1, -a.2.1, -a.2.2)

/-- Scalar multiple of a vector. -/
def smul3 (c : ℝ) (a : V3) : V3 := (c * a.1, c * a.2.1, c * a.2.2)

/-- Elementwise (Hadamard) product, the numpy np.multiply of two 3-vectors. -/
def vmul3 (a b : V3) : V3 := (a.1 * b.1, a.2.1 * b.2.1, a.2.2 * b.2.2)

/-- Dot product of two 3-vectors. -/
def dot3 (a b : V3) : ℝ := a.1 * b.1 + a.2.1 * b.2.1 + a.2.2 * b.2.2

/-- Cross product of two 3-vectors, the numpy np.cross. -/
def cross3 (a b : V3) : V3 :=
  (a.2.1 * b.2.2 - a.2.2 * b.2.1, a.2.2 * b.1 - a.1 * b.2.2, a.1 * b.2.1 - a.2.1 * b.1)

/-- Euclidean norm of a 3-vector, the numpy np.linalg.norm. -/
def norm3 (a : V3) : ℝ := Real.sqrt (dot3 a a)

/-- Scalar clamp, numpy np.clip(x, lo, hi) = min(hi, max(lo, x)). -/
def clipR (x lo hi : ℝ) : ℝ := min hi (max lo x)

/-- Componentwise clamp of a 3-vector. -/
def clip3 (a : V3) (lo hi : ℝ) : V3 :=
  (clipR a.1 lo hi, clipR a.2.1 lo hi, clipR a.2.2 lo hi)

/-- Matrix transpose. -/
def mat3T (m : Mat3) : Mat3 :=
  ((m.1.1, m.2.1.1, m.2.2.1), (m.1.2.1, m.2.1.2.1, m.2.2.2.1),
   (m.1.2.2, m.2.1.2.2, m.2.2.2.2))

/-- Matrix product (rows of a dotted with columns of b). -/
def mat3Mul (a b : Mat3) : Mat3 :=
  let bt := mat3T b
  ((dot3 a.1 bt.1, dot3 a.1 bt.2.1, dot3 a.1 bt.2.2),
   (dot3 a.2.1 bt.1, dot3 a.2.1 bt.2.1, dot3 a.2.1 bt.2.2),
   (dot3 a.2.2 bt.1, dot3 a.2.2 bt.2.1, dot3 a.2.2 bt.2.2))

/-- Matrix difference. -/
def mat3Sub (a b : Mat3) : Mat3 := (vsub3 a.1 b.1, vsub3 a.2.1 b.2.1, vsub3 a.2.2 b.2.2)

/-- Third column of a matrix: cur_rotation[:, 2] in the source. -/
def mat3Col2 (m : Mat3) : V3 := (m.1.2.2, m.2.1.2.2, m.2.2.2.2)

/-- Two-argument arctangent atan2(y, x), modelled as the complex argument of
x + y i, with range (-pi, pi]. -/
def atan2 (y x : ℝ) : ℝ := Complex.arg ⟨x, y⟩

/-- Rotation matrix of a quaternion (x,y,z,w), scalar-last as in pybullet
getMatrixFromQuaternion and scipy Rotation.from_quat (standard closed form
for a unit quaternion; the normalization the libraries apply to non-unit
inputs is omitted, all quaternions fed to it in this development come from
the physics engine or from as_quat and are unit). -/
def matFromQuat (q : V4) : Mat3 :=
  ((1 - 2 * (q.2.1 * q.2.1 + q.2.2.1 * q.2.2.1),
    2 * (q.1 * q.2.1 - q.2.2.1 * q.2.2.2),
    2 * (q.1 * q.2.2.1 + q.2.1 * q.2.2.2)),
   (2 * (q.1 * q.2.1 + q.2.2.1 * q.2.2.2),
    1 - 2 * (q.1 * q.1 + q.2.2.1 * q.2.2.1),
    2 * (q.2.1 * q.2.2.1 - q.1 * q.2.2.2)),
   (2 * (q.1 * q.2.2.1 - q.2.1 * q.2.2.2),
    2 * (q.2.1 * q.2.2.1 + q.1 * q.2.2.2),
    1 - 2 * (q.1 * q.1 + q.2.1 * q.2.1)))

/-- Euler angles (roll, pitch, yaw) of a quaternion (x,y,z,w), the pybullet
getEulerFromQuaternion (URDF rpy convention), by the standard closed form. -/
def quatToEulerPB (q : V4) : V3 :=
  (atan2 (2 * (q.2.2.2 * q.1 + q.2.1 * q.2.2.1)) (1 - 2 * (q.1 * q.1 + q.2.1 * q.2.1)),
   Real.arcsin (2 * (q.2.2.2 * q.2.1 - q.2.2.1 * q.1)),
   atan2 (2 * (q.2.2.2 * q.2.2.1 + q.1 * q.2.1))
     (1 - 2 * (q.2.1 * q.2.1 + q.2.2.1 * q.2.2.1)))

/-- Hamilton product of quaternions stored as (x,y,z,w). -/
def qmul (a b : V4) : V4 :=
  (a.2.2.2 * b.1 + a.1 * b.2.2.2 + a.2.1 * b.2.2.1 - a.2.2.1 * b.2.1,
   a.2.2.2 * b.2.1 - a.1 * b.2.2.1 + a.2.1 * b.2.2.2 + a.2.2.1 * b.1,
   a.2.2.2 * b.2.2.1 + a.1 * b.2.1 - a.2.1 * b.1 + a.2.2.1 * b.2.2.2,
   a.2.2.2 * b.2.2.2 - a.1 * b.1 - a.2.1 * b.2.1 - a.2.2.1 * b.2.2.1)

/-- Quaternion of intrinsic-XYZ Euler angles: scipy
Rotation.from_euler('XYZ', e).as_quat(), the product of the three axis
rotations. -/
def quatFromEulerXYZ (e : V3) : V4 :=
  qmul (qmul (Real.sin (e.1 / 2), 0, 0, Real.cos (e.1 / 2))
             (0, Real.sin (e.2.1 / 2), 0, Real.cos (e.2.1 / 2)))
       (0, 0, Real.sin (e.2.2 / 2), Real.cos (e.2.2 / 2))

/-- Intrinsic-XYZ Euler angles of a rotation matrix, scipy
Rotation.as_euler('XYZ'): for R = Rx(a) Ry(b) Rz(c),
a = atan2(-R12, R22), b = arcsin(R02), c = atan2(-R01, R00). -/
def eulerXYZOfMat (m : Mat3) : V3 :=
  (atan2 (-m.2.1.2.2) m.2.2.2.2, Real.arcsin m.1.2.2, atan2 (-m.1.2.1) m.1.1)

/-- Drone model tag, from enums.DroneModel; DSLPIDControl accepts exactly
CF2X and CF2P. -/
inductive DroneModel : Type
| cf2x : DroneModel
| cf2p : DroneModel
deriving DecidableEq

/-- Position P gains (DSLPIDControl.__init__). -/
def P_COEFF_FOR : V3 := (0.4, 0.4, 1.25)

/-- Position I gains. -/
def I_COEFF_FOR : V3 := (0.05, 0.05, 0.05)

/-- Position D gains. -/
def D_COEFF_FOR : V3 := (0.2, 0.2, 0.5)

/-- Attitude P gains. -/
def P_COEFF_TOR : V3 := (70000, 70000, 60000)

/-- Attitude I gains. -/
def I_COEFF_TOR : V3 := (0, 0, 500)

/-- Attitude D gains. -/
def D_COEFF_TOR : V3 := (20000, 20000, 12000)

/-- PWM-to-RPM affine map slope. -/
def PWM2RPM_SCALE : ℝ := 0.2685

/-- PWM-to-RPM affine map offset. -/
def PWM2RPM_CONST : ℝ := 4070.3

/-- Lower PWM clamp bound. -/
def MIN_PWM : ℝ := 20000

/-- Upper PWM clamp bound. -/
def MAX_PWM : ℝ := 65535

/-- Mixer matrix (4 rows of 3), selected by drone model at construction. -/
def MIXER_MATRIX : DroneModel → V3 × V3 × V3 × V3
| DroneModel.cf2x => ((-0.5, -0.5, -1), (-0.5, 0.5, 1), (0.5, 0.5, -1), (0.5, -0.5, 1))
| DroneModel.cf2p => ((0, -1, -1), (1, 0, 1), (0, 1, -1), (-1, 0, 1))

/-- Controller parameters resolved at construction.  GRAVITY = g * m and the
thrust coefficient KF come from the cf2p/cf2x URDF files, which are part of
the repository but not under src; they are therefore left as parameters. -/
structure CtrlParams : Type where
  DRONE_MODEL : DroneModel
  GRAVITY : ℝ
  KF : ℝ

/-- Mutable controller state (DSLPIDControl.reset and computeControl):
tick counter, last observed Euler attitude, last position error (written by
reset only), and the two clamped integrators. -/
structure CtrlState : Type where
  control_counter : ℕ
  last_rpy : V3
  last_pos_e : V3
  integral_pos_e : V3
  integral_rpy_e : V3

/-- Per-tick inputs of computeControl. -/
structure CtrlInput : Type where
  control_timestep : ℝ
  cur_pos : V3
  cur_quat : V4
  cur_vel : V3
  cur_ang_vel : V3
  target_pos : V3
  target_rpy : V3
  target_vel : V3
  target_rpy_rates : V3

/-- Position-integrator update of _dslPIDPositionControl (lines 58-60):
integrate, clamp every axis to [-2, 2], then clamp the vertical axis to
[-0.15, 0.15]. -/
def posIntegralUpd (integral pos_e : V3) (dt : ℝ) : V3 :=
  let i1 := clip3 (vadd3 integral (smul3 dt pos_e)) (-2) 2
  (i1.1, i1.2.1, clipR i1.2.2 (-0.15) 0.15)

/-- PID target thrust vector of _dslPIDPositionControl (lines 63-65). -/
def targetThrust (p : CtrlParams) (pos_e vel_e i2 : V3) : V3 :=
  vadd3 (vadd3 (vadd3 (vmul3 P_COEFF_FOR pos_e) (vmul3 I_COEFF_FOR i2))
    (vmul3 D_COEFF_FOR vel_e)) (0, 0, p.GRAVITY)

/-- Position error target_pos - cur_pos (line 55). -/
def posE (inp : CtrlInput) : V3 := vsub3 inp.target_pos inp.cur_pos

/-- The target thrust vector computed by _dslPIDPositionControl from the
given state and inputs (with the already-updated integrator). -/
def posTargetThrust (p : CtrlParams) (s : CtrlState) (inp : CtrlInput) : V3 :=
  targetThrust p (posE inp) (vsub3 inp.target_vel inp.cur_vel)
    (posIntegralUpd s.integral_pos_e (posE inp) inp.control_timestep)

/-- Yaw reference axis target_x_c = (cos(yaw), sin(yaw), 0) (line 71). -/
def targetXC (yaw : ℝ) : V3 := (Real.cos yaw, Real.sin yaw, 0)

/-- Desired body z axis target_thrust / norm(target_thrust) (line 70); note
the source has no guard against a zero norm (division by zero yields 0 in
this embedding). -/
def targetZAx (tt : V3) : V3 := smul3 (norm3 tt)⁻¹ tt

/-- Cross product of the desired z axis with the yaw reference axis (the
vector normalized on line 72). -/
def crossZX (tt : V3) (yaw : ℝ) : V3 := cross3 (targetZAx tt) (targetXC yaw)

/-- Desired body y axis (line 72), again normalized without a zero guard. -/
def targetYAx (tt : V3) (yaw : ℝ) : V3 :=
  smul3 (norm3 (crossZX tt yaw))⁻¹ (crossZX tt yaw)

/-- Desired body x axis (line 73). -/
def targetXAx (tt : V3) (yaw : ℝ) : V3 := cross3 (targetYAx tt yaw) (targetZAx tt)

/-- Desired rotation matrix with columns x, y, z axes (line 75). -/
def targetRotationMat (tt : V3) (yaw : ℝ) : Mat3 :=
  (((targetXAx tt yaw).1, (targetYAx tt yaw).1, (targetZAx tt).1),
   ((targetXAx tt yaw).2.1, (targetYAx tt yaw).2.1, (targetZAx tt).2.1),
   ((targetXAx tt yaw).2.2, (targetYAx tt yaw).2.2, (targetZAx tt).2.2))

/-- Unclamped target Euler angles (line 76). -/
def targetEulerPre (tt : V3) (yaw : ℝ) : V3 := eulerXYZOfMat (targetRotationMat tt yaw)

/-- Safety clamp of roll and pitch to [-0.5, 0.5] (lines 80-82); yaw is left
unclamped. -/
def clampRP (e : V3) : V3 := (clipR e.1 (-0.5) 0.5, clipR e.2.1 (-0.5) 0.5, e.2.2)

/-- Condition np.any(np.abs(e) > pi): some Euler component has magnitude
exceeding pi. -/
def eulerExceedsPi (e : V3) : Prop :=
  Real.pi < |e.1| ∨ Real.pi < |e.2.1| ∨ Real.pi < |e.2.2|

/-- _dslPIDPositionControl (lines 51-87): returns thrust command, clamped
target Euler angles, position error and the updated position integrator.
The diagnostic print on line 84-85 tests the clamped Euler array (it runs
after the clamp) and does not change any returned value. -/
def dslPIDPositionControl (p : CtrlParams) (s : CtrlState) (inp : CtrlInput) :
    ℝ × V3 × V3 × V3 :=
  let pos_e := posE inp
  let i2 := posIntegralUpd s.integral_pos_e pos_e inp.control_timestep
  let tt := posTargetThrust p s inp
  let cur_rotation := matFromQuat inp.cur_quat
  let scalar_thrust := max 0 (dot3 tt (mat3Col2 cur_rotation))
  let thrust := (Real.sqrt (scalar_thrust / (4 * p.KF)) - PWM2RPM_CONST) / PWM2RPM_SCALE
  (thrust, clampRP (targetEulerPre tt inp.target_rpy.2.2), pos_e, i2)

/-- Attitude-integrator update of _dslPIDAttitudeControl (lines 99-101):
integrate, clamp every axis to [-2, 2], then clamp roll and pitch to
[-1, 1]. -/
def rpyIntegralUpd (integral rot_e : V3) (dt : ℝ) : V3 :=
  let j1 := clip3 (vsub3 integral (smul3 dt rot_e)) (-2) 2
  (clipR j1.1 (-1) 1, clipR j1.2.1 (-1) 1, j1.2.2)

/-- Rotation error vector rot_e (lines 92-96): vee-map extraction from
target_R^T cur_R - cur_R^T target_R.  The source converts the target Euler
angles to a quaternion and back to a matrix; the unpacking w,x,y,z =
target_quat followed by from_quat([w,x,y,z]) passes the same 4 components
through in the same order, so the rotation is unchanged. -/
def rotE (cur_quat : V4) (target_euler : V3) : V3 :=
  let cur_rotation := matFromQuat cur_quat
  let target_rotation := matFromQuat (quatFromEulerXYZ target_euler)
  let e := mat3Sub (mat3Mul (mat3T target_rotation) cur_rotation)
    (mat3Mul (mat3T cur_rotation) target_rotation)
  (e.2.2.2.1, e.1.2.2, e.2.1.1)

/-- Per-motor PWM (lines 104-105): thrust plus mixer-mixed torques, clamped
to [MIN_PWM, MAX_PWM]. -/
def attPwm (p : CtrlParams) (thrust : ℝ) (t : V3) : V4 :=
  (clipR (thrust + dot3 (MIXER_MATRIX p.DRONE_MODEL).1 t) MIN_PWM MAX_PWM,
   clipR (thrust + dot3 (MIXER_MATRIX p.DRONE_MODEL).2.1 t) MIN_PWM MAX_PWM,
   clipR (thrust + dot3 (MIXER_MATRIX p.DRONE_MODEL).2.2.1 t) MIN_PWM MAX_PWM,
   clipR (thrust + dot3 (MIXER_MATRIX p.DRONE_MODEL).2.2.2 t) MIN_PWM MAX_PWM)

/-- Output motor speeds PWM2RPM_SCALE * pwm + PWM2RPM_CONST (line 106). -/
def pwmToRpm (w : V4) : V4 :=
  (PWM2RPM_SCALE * w.1 + PWM2RPM_CONST, PWM2RPM_SCALE * w.2.1 + PWM2RPM_CONST,
   PWM2RPM_SCALE * w.2.2.1 + PWM2RPM_CONST, PWM2RPM_SCALE * w.2.2.2 + PWM2RPM_CONST)

/-- _dslPIDAttitudeControl (lines 89-106): returns the motor speeds, the new
last_rpy and the updated attitude integrator. -/
def dslPIDAttitudeControl (p : CtrlParams) (s : CtrlState) (control_timestep thrust : ℝ)
    (cur_quat : V4) (target_euler target_rpy_rates : V3) : V4 × V3 × V3 :=
  let cur_rpy := quatToEulerPB cur_quat
  let rot_e := rotE cur_quat target_euler
  let rpy_rates_e := vsub3 target_rpy_rates
    (smul3 control_timestep⁻¹ (vsub3 cur_rpy s.last_rpy))
  let j2 := rpyIntegralUpd s.integral_rpy_e rot_e control_timestep
  let target_torques := clip3
    (vadd3 (vadd3 (vneg3 (vmul3 P_COEFF_TOR rot_e)) (vmul3 D_COEFF_TOR rpy_rates_e))
      (vmul3 I_COEFF_TOR j2)) (-3200) 3200
  (pwmToRpm (attPwm p thrust target_torques), cur_rpy, j2)

/-- computeControl (lines 44-49): position control, then attitude control,
returning motor speeds, position error, yaw error, and the updated controller
state. -/
def computeControl (p : CtrlParams) (s : CtrlState) (inp : CtrlInput) :
    V4 × V3 × ℝ × CtrlState :=
  let pc := dslPIDPositionControl p s inp
  let ac := dslPIDAttitudeControl p s inp.control_timestep pc.1 inp.cur_quat pc.2.1
    inp.target_rpy_rates
  let cur_rpy := quatToEulerPB inp.cur_quat
  (ac.1, pc.2.2.1, pc.2.1.2.2 - cur_rpy.2.2,
   { control_counter := s.control_counter + 1
     last_rpy := ac.2.1
     last_pos_e := s.last_pos_e
     integral_pos_e := pc.2.2.2
     integral_rpy_e := ac.2.2 })

/-- State effect of one computeControl call. -/
def ctrlStep (p : CtrlParams) (inp : CtrlInput) (s : CtrlState) : CtrlState :=
  (computeControl p s inp).2.2.2

/-- State after a sequence of computeControl calls. -/
def ctrlRun (p : CtrlParams) (s : CtrlState) (ticks : List CtrlInput) : CtrlState :=
  ticks.foldl (fun st i => ctrlStep p i st) s

/-- Upper clamp bound always holds. -/
theorem clipR_le_hi (x lo hi : ℝ) : clipR x lo hi ≤ hi := min_le_left _ _

/-- Lower clamp bound holds whenever the interval is nonempty. -/
theorem le_clipR (x lo hi : ℝ) (h : lo ≤ hi) : lo ≤ clipR x lo hi :=
  le_min h (le_max_left _ _)

/-- Absolute value of a symmetric clamp is bounded by the clamp radius. -/
theorem abs_clipR_le (x c : ℝ) (hc : 0 ≤ c) : |clipR x (-c) c| ≤ c := by
  have h1 := le_clipR x (-c) c (by linarith)
  have h2 := clipR_le_hi x (-c) c
  exact abs_le.mpr ⟨h1, h2⟩

/-- The integrator clamp invariant of the spec: position integral within
[-2, 2] per axis and [-0.15, 0.15] on the vertical axis; attitude integral
within [-2, 2] per axis and [-1, 1] on roll and pitch. -/
def integralsInBounds (s : CtrlState) : Prop :=
  |s.integral_pos_e.1| ≤ 2 ∧ |s.integral_pos_e.2.1| ≤ 2 ∧ |s.integral_pos_e.2.2| ≤ 2 ∧
  |s.integral_pos_e.2.2| ≤ 0.15 ∧
  |s.integral_rpy_e.1| ≤ 2 ∧ |s.integral_rpy_e.2.1| ≤ 2 ∧ |s.integral_rpy_e.2.2| ≤ 2 ∧
  |s.integral_rpy_e.1| ≤ 1 ∧ |s.integral_rpy_e.2.1| ≤ 1

/-- One computeControl call from any state leaves both integrators inside
their clamp bounds: the clamps are the last writes of each update. -/
theorem ctrlStep_integralsInBounds (p : CtrlParams) (inp : CtrlInput) (s : CtrlState) :
    integralsInBounds (ctrlStep p inp s) := by
  have hp : (0 : ℝ) ≤ 0.15 := by norm_num
  have h1 : (0 : ℝ) ≤ 1 := by norm_num
  have h2 : (0 : ℝ) ≤ 2 := by norm_num
  refine ⟨?_, ?_, ?_, ?_, ?_, ?_, ?_, ?_, ?_⟩ <;>
    simp only [ctrlStep, computeControl, dslPIDPositionControl, dslPIDAttitudeControl,
      posIntegralUpd, rpyIntegralUpd, clip3, integralsInBounds]
  · exact abs_clipR_le _ 2 h2
  · exact abs_clipR_le _ 2 h2
  · exact le_trans (abs_clipR_le _ 0.15 hp) (by norm_num)
  · exact abs_clipR_le _ 0.15 hp
  · exact le_trans (abs_clipR_le _ 1 h1) (by norm_num)
  · exact le_trans (abs_clipR_le _ 1 h1) (by norm_num)
  · exact abs_clipR_le _ 2 h2
  · exact abs_clipR_le _ 1 h1
  · exact abs_clipR_le _ 1 h1

/-- After any nonempty sequence of computeControl calls the integrators are
inside their clamp bounds. -/
theorem ctrlRun_integralsInBounds (p : CtrlParams) :
    ∀ (ticks : List CtrlInput) (s : CtrlState), ticks ≠ [] →
      integralsInBounds (ctrlRun p s ticks) := by
  intro ticks
  induction ticks with
  | nil => intro s h; exact absurd rfl h
  | cons a t ih =>
    intro s _
    cases t with
    | nil => exact ctrlStep_integralsInBounds p a s
    | cons b u => exact ih (ctrlStep p a s) (by simp)

/-- Claim C1: for any sequence of calls to computeControl, after each tick the
position-error integral lies within [-2, 2] on every axis and within
[-0.15, 0.15] on the vertical axis, and the attitude-error integral lies
within [-2, 2] on every axis and within [-1, 1] on roll and pitch (applies to
every nonempty prefix of any tick sequence, from any starting state). -/
theorem pid_integrators_clamped (p : CtrlParams) (s0 : CtrlState)
    (ticks : List CtrlInput) (h : ticks ≠ []) :
    integralsInBounds (ctrlRun p s0 ticks) :=
  ctrlRun_integralsInBounds p ticks s0 h

/-- Zero 3-vector, used by the concrete witnesses. -/
def zeroV3 : V3 := (0, 0, 0)

/-- Concrete controller parameters for witnesses (CF2P model, unit gravity
force and thrust coefficient). -/
def witParams : CtrlParams := { DRONE_MODEL := DroneModel.cf2p, GRAVITY := 1, KF := 1 }

/-- Freshly reset controller state (DSLPIDControl.reset). -/
def witState : CtrlState :=
  { control_counter := 0, last_rpy := zeroV3, last_pos_e := zeroV3,
    integral_pos_e := zeroV3, integral_rpy_e := zeroV3 }

/-- A hover tick input: identity attitude, all positions and velocities
zero. -/
def witInput : CtrlInput :=
  { control_timestep := 1 / 48, cur_pos := zeroV3, cur_quat := (0, 0, 0, 1),
    cur_vel := zeroV3, cur_ang_vel := zeroV3, target_pos := zeroV3,
    target_rpy := zeroV3, target_vel := zeroV3, target_rpy_rates := zeroV3 }

/-- Witness for claim C1: a concrete one-tick run satisfies the clamp
invariant. -/
theorem pid_integrators_clamped_witness :
    ([witInput] : List CtrlInput) ≠ [] ∧
    integralsInBounds (ctrlRun witParams witState [witInput]) :=
  ⟨by simp, pid_integrators_clamped witParams witState [witInput] (by simp)⟩

/-- Per-motor PWM bounds of the spec: each of the 4 components within
[MIN_PWM, MAX_PWM]. -/
def pwmInBounds (w : V4) : Prop :=
  (MIN_PWM ≤ w.1 ∧ w.1 ≤ MAX_PWM) ∧ (MIN_PWM ≤ w.2.1 ∧ w.2.1 ≤ MAX_PWM) ∧
  (MIN_PWM ≤ w.2.2.1 ∧ w.2.2.1 ≤ MAX_PWM) ∧ (MIN_PWM ≤ w.2.2.2 ∧ w.2.2.2 ≤ MAX_PWM)

/-- Motor speed bounds: each output within the affine image of the PWM clamp
interval. -/
def rpmInBounds (r : V4) : Prop :=
  (PWM2RPM_SCALE * MIN_PWM + PWM2RPM_CONST ≤ r.1 ∧
    r.1 ≤ PWM2RPM_SCALE * MAX_PWM + PWM2RPM_CONST) ∧
  (PWM2RPM_SCALE * MIN_PWM + PWM2RPM_CONST ≤ r.2.1 ∧
    r.2.1 ≤ PWM2RPM_SCALE * MAX_PWM + PWM2RPM_CONST) ∧
  (PWM2RPM_SCALE * MIN_PWM + PWM2RPM_CONST ≤ r.2.2.1 ∧
    r.2.2.1 ≤ PWM2RPM_SCALE * MAX_PWM + PWM2RPM_CONST) ∧
  (PWM2RPM_SCALE * MIN_PWM + PWM2RPM_CONST ≤ r.2.2.2 ∧
    r.2.2.2 ≤ PWM2RPM_SCALE * MAX_PWM + PWM2RPM_CONST)

/-- The per-motor PWM clamp always lands in [MIN_PWM, MAX_PWM]. -/
theorem attPwm_inBounds (p : CtrlParams) (thrust : ℝ) (t : V3) :
    pwmInBounds (attPwm p thrust t) := by
  have hle : MIN_PWM ≤ MAX_PWM := by norm_num [MIN_PWM, MAX_PWM]
  exact ⟨⟨le_clipR _ _ _ hle, clipR_le_hi _ _ _⟩, ⟨le_clipR _ _ _ hle, clipR_le_hi _ _ _⟩,
    ⟨le_clipR _ _ _ hle, clipR_le_hi _ _ _⟩, ⟨le_clipR _ _ _ hle, clipR_le_hi _ _ _⟩⟩

/-- The affine PWM-to-RPM map sends PWM bounds to RPM bounds. -/
theorem pwmToRpm_mono (w : V4) (h : pwmInBounds w) : rpmInBounds (pwmToRpm w) := by
  have hs : (0 : ℝ) < PWM2RPM_SCALE := by norm_num [PWM2RPM_SCALE]
  obtain ⟨⟨a1, a2⟩, ⟨b1, b2⟩, ⟨c1, c2⟩, ⟨d1, d2⟩⟩ := h
  refine ⟨⟨?_, ?_⟩, ⟨?_, ?_⟩, ⟨?_, ?_⟩, ⟨?_, ?_⟩⟩ <;>
    simp only [pwmToRpm] <;> nlinarith

/-- Claim C6: for every input to the attitude controller, the per-motor PWM
command is clamped to [MIN_PWM, MAX_PWM], and each of the four output motor
speeds lies in the corresponding affine-image bounds; no motor command
outside the clamp bounds is ever issued. -/
theorem motor_commands_within_bounds (p : CtrlParams) (s : CtrlState)
    (control_timestep thrust : ℝ) (cur_quat : V4) (target_euler target_rpy_rates : V3) :
    (∀ (th : ℝ) (t : V3), pwmInBounds (attPwm p th t)) ∧
    rpmInBounds ((dslPIDAttitudeControl p s control_timestep thrust cur_quat
      target_euler target_rpy_rates).1) := by
  refine ⟨fun th t => attPwm_inBounds p th t, ?_⟩
  have hout : (dslPIDAttitudeControl p s control_timestep thrust cur_quat
      target_euler target_rpy_rates).1 = pwmToRpm (attPwm p thrust
        (clip3 (vadd3 (vadd3 (vneg3 (vmul3 P_COEFF_TOR (rotE cur_quat target_euler)))
          (vmul3 D_COEFF_TOR (vsub3 target_rpy_rates (smul3 control_timestep⁻¹
            (vsub3 (quatToEulerPB cur_quat) s.last_rpy)))))
          (vmul3 I_COEFF_TOR (rpyIntegralUpd s.integral_rpy_e (rotE cur_quat target_euler)
            control_timestep))) (-3200) 3200)) := rfl
  rw [hout]
  exact pwmToRpm_mono _ (attPwm_inBounds p thrust _)

/-- Magnitude of atan2 is at most pi (the complex argument range). -/
theorem abs_atan2_le_pi (y x : ℝ) : |atan2 y x| ≤ Real.pi :=
  abs_le.mpr ⟨le_of_lt (Complex.neg_pi_lt_arg _), Complex.arg_le_pi _⟩

/-- Magnitude of arcsin is at most pi. -/
theorem abs_arcsin_le_pi (x : ℝ) : |Real.arcsin x| ≤ Real.pi := by
  have h1 := Real.neg_pi_div_two_le_arcsin x
  have h2 := Real.arcsin_le_pi_div_two x
  have hpi := Real.pi_pos
  exact abs_le.mpr ⟨by linarith, by linarith⟩

/-- The unclamped target Euler angles never have a component of magnitude
exceeding pi: the XYZ Euler extraction is built from atan2 (range at most pi)
and arcsin (range at most pi/2). -/
theorem not_eulerExceedsPi_pre (tt : V3) (yaw : ℝ) :
    ¬ eulerExceedsPi (targetEulerPre tt yaw) := by
  simp only [eulerExceedsPi, targetEulerPre, eulerXYZOfMat, not_or, not_lt]
  exact ⟨abs_atan2_le_pi _ _, abs_arcsin_le_pi _, abs_atan2_le_pi _ _⟩

/-- The clamped target Euler angles never have a component of magnitude
exceeding pi either: roll and pitch are clamped to 0.5 < pi, yaw is an atan2
value. -/
theorem not_eulerExceedsPi_clamped (tt : V3) (yaw : ℝ) :
    ¬ eulerExceedsPi (clampRP (targetEulerPre tt yaw)) := by
  have hpi := Real.pi_gt_three
  simp only [eulerExceedsPi, clampRP, targetEulerPre, eulerXYZOfMat, not_or, not_lt]
  refine ⟨le_trans (abs_clipR_le _ 0.5 (by norm_num)) (by linarith),
    le_trans (abs_clipR_le _ 0.5 (by norm_num)) (by linarith), abs_atan2_le_pi _ _⟩

/-- Claim C3: the attitude-singularity diagnostic condition that the code
tests (on the clamped Euler array, line 84) holds exactly when the unclamped
magnitude of some component of the computed target Euler angles exceeds pi
(both conditions are provably never true, so the equivalence claimed by the
spec holds), and the controller always returns the clamped value and
continues. -/
theorem attitude_singularity_diag (p : CtrlParams) (s : CtrlState) (inp : CtrlInput) :
    (eulerExceedsPi (clampRP (targetEulerPre (posTargetThrust p s inp) inp.target_rpy.2.2))
      ↔ eulerExceedsPi (targetEulerPre (posTargetThrust p s inp) inp.target_rpy.2.2)) ∧
    (dslPIDPositionControl p s inp).2.1
      = clampRP (targetEulerPre (posTargetThrust p s inp) inp.target_rpy.2.2) :=
  ⟨iff_of_false (not_eulerExceedsPi_clamped _ _) (not_eulerExceedsPi_pre _ _), rfl⟩

/-- Self dot product is nonnegative. -/
theorem dot3_self_nonneg (v : V3) : 0 ≤ dot3 v v := by
  obtain ⟨a, b, c⟩ := v
  simp only [dot3]
  nlinarith [sq_nonneg a, sq_nonneg b, sq_nonneg c]

/-- Norms are nonnegative. -/
theorem norm3_nonneg (v : V3) : 0 ≤ norm3 v := Real.sqrt_nonneg _

/-- A norm vanishes exactly on the zero vector. -/
theorem norm3_eq_zero_iff (v : V3) : norm3 v = 0 ↔ v = ((0 : ℝ), 0, 0) := by
  obtain ⟨a, b, c⟩ := v
  simp only [norm3, dot3]
  rw [Real.sqrt_eq_zero (by nlinarith [sq_nonneg a, sq_nonneg b, sq_nonneg c])]
  constructor
  · intro h
    have ha : a = 0 := by nlinarith [sq_nonneg a, sq_nonneg b, sq_nonneg c]
    have hb : b = 0 := by nlinarith [sq_nonneg a, sq_nonneg b, sq_nonneg c]
    have hc : c = 0 := by nlinarith [sq_nonneg a, sq_nonneg b, sq_nonneg c]
    simp [ha, hb, hc]
  · intro h
    simp only [Prod.mk.injEq] at h
    obtain ⟨h1, h2, h3⟩ := h
    rw [h1, h2, h3]
    ring

/-- Cross product is homogeneous in its first argument. -/
theorem cross3_smul_left (c : ℝ) (v w : V3) :
    cross3 (smul3 c v) w = smul3 c (cross3 v w) := by
  obtain ⟨a, b, d⟩ := v
  obtain ⟨x, y, z⟩ := w
  simp only [cross3, smul3, Prod.mk.injEq]
  refine ⟨by ring, by ring, by ring⟩

/-- Norm of a nonnegative scalar multiple. -/
theorem norm3_smul_nonneg (c : ℝ) (hc : 0 ≤ c) (v : V3) :
    norm3 (smul3 c v) = c * norm3 v := by
  obtain ⟨a, b, d⟩ := v
  simp only [norm3, smul3, dot3]
  rw [show c * a * (c * a) + c * b * (c * b) + c * d * (c * d)
      = c ^ 2 * (a * a + b * b + d * d) from by ring]
  rw [Real.sqrt_mul (sq_nonneg c), Real.sqrt_sq hc]

/-- The divisor of the second normalization factors through the unnormalized
cross product. -/
theorem norm3_crossZX (tt : V3) (yaw : ℝ) :
    norm3 (crossZX tt yaw) = (norm3 tt)⁻¹ * norm3 (cross3 tt (targetXC yaw)) := by
  rw [crossZX, targetZAx, cross3_smul_left,
    norm3_smul_nonneg _ (inv_nonneg.mpr (norm3_nonneg tt))]

/-- Claim C2 (amended): the desired-body-frame construction is not guarded;
its two normalization divisors vanish exactly on the degenerate inputs.  The
norm of the target thrust is zero iff the thrust vector is zero, and the norm
of its cross product with the yaw reference axis is zero iff the thrust is
zero or collinear with the yaw reference axis (zero cross product); on all
other inputs no divisor is zero. -/
theorem frame_build_divisors_iff (tt : V3) (yaw : ℝ) :
    (norm3 tt = 0 ↔ tt = ((0 : ℝ), 0, 0)) ∧
    (norm3 (crossZX tt yaw) = 0 ↔
      (tt = ((0 : ℝ), 0, 0) ∨ cross3 tt (targetXC yaw) = ((0 : ℝ), 0, 0))) := by
  refine ⟨norm3_eq_zero_iff tt, ?_⟩
  rw [norm3_crossZX, mul_eq_zero, inv_eq_zero, norm3_eq_zero_iff, norm3_eq_zero_iff]

/-- Freshly reset controller state for the C2 counterexample. -/
def ceState : CtrlState :=
  { control_counter := 0, last_rpy := zeroV3, last_pos_e := zeroV3,
    integral_pos_e := zeroV3, integral_rpy_e := zeroV3 }

/-- Counterexample input for C2: zero position error, current velocity
(-5, 0, 2) so the velocity error is (5, 0, -2); with GRAVITY = 1 the target
thrust becomes (1, 0, 0), collinear with the yaw reference axis at yaw 0. -/
def ceInput : CtrlInput :=
  { control_timestep := 1 / 48, cur_pos := zeroV3, cur_quat := (0, 0, 0, 1),
    cur_vel := (-5, 0, 2), cur_ang_vel := zeroV3, target_pos := zeroV3,
    target_rpy := zeroV3, target_vel := zeroV3, target_rpy_rates := zeroV3 }

/-- Counterexample for claim C2: at a concrete input the target thrust is the
unit vector (1,0,0), so the first normalization is fine, yet the norm of its
cross product with the yaw reference axis is 0 and the second normalization
divides by zero, refuting that the frame build is guarded for every input. -/
theorem frame_build_guard_refuted :
    norm3 (posTargetThrust witParams ceState ceInput) = 1 ∧
    norm3 (crossZX (posTargetThrust witParams ceState ceInput)
      ceInput.target_rpy.2.2) = 0 := by
  have htt : posTargetThrust witParams ceState ceInput = ((1 : ℝ), 0, 0) := by
    simp only [posTargetThrust, targetThrust, posE, posIntegralUpd, ceState, ceInput,
      witParams, zeroV3, vsub3, vadd3, vmul3, smul3, clip3, clipR, P_COEFF_FOR,
      I_COEFF_FOR, D_COEFF_FOR, Prod.mk.injEq]
    norm_num
  have hn1 : norm3 ((1 : ℝ), 0, 0) = 1 := by
    simp only [norm3, dot3]
    norm_num
  constructor
  · rw [htt, hn1]
  · rw [htt, crossZX, targetZAx, hn1]
    show norm3 (cross3 (smul3 1⁻¹ (1, 0, 0)) (targetXC ceInput.target_rpy.2.2)) = 0
    have hyaw : ceInput.target_rpy.2.2 = 0 := rfl
    rw [hyaw]
    simp only [targetXC, Real.cos_zero, Real.sin_zero, smul3, cross3, norm3, dot3]
    norm_num

-- ==================== Mission tick loop (src/backend/app.py) ====================

/-- Mission status values of DroneSimulatorState.status. -/
inductive MStatus : Type
| idle : MStatus
| deploying : MStatus
| flying : MStatus
| stalled : MStatus
| returning_home : MStatus
| aborted : MStatus
| completed : MStatus
| error : MStatus
deriving DecidableEq

/-- Hover altitude constant of run_drone_simulation (line 279). -/
def HOVER_ALTITUDE : ℝ := 1

/-- Cruise speed of the virtual reference (line 281). -/
def CRUISE_SPEED : ℝ := 0.5

/-- Dwell time threshold at each waypoint (line 282). -/
def WAIT_TIME_AT_CORNER : ℝ := 1.5

/-- Control timestep 1/48 s (line 283). -/
def CTRL_TIMESTEP : ℝ := 1 / 48

/-- Physics sub-steps per control tick, int(240/48) = 5 (line 286). -/
def SIM_STEPS : ℕ := 5

/-- Mission loop state of run_drone_simulation: the waypoint list, index,
virtual reference position and velocity, dwell timer, waiting flag, the
abort-consumed flag and the shared status field. -/
structure MissionState : Type where
  waypoints : List V3
  current_wp_idx : ℕ
  virtual_pos : V3
  target_vel : V3
  wait_timer : ℝ
  is_waiting : Bool
  abort_initiated : Bool
  status : MStatus

/-- Per-tick external inputs of the mission loop: whether the command queue
yields an abort this tick, the shared paused flag, and the drone position
reported by the physics engine. -/
structure MissionInput : Type where
  cmd_abort : Bool
  paused : Bool
  cur_pos : V3

/-- The 3-point return-home path built on abort (lines 318-322): current
position at hover altitude, home (0,0) at hover altitude, low landing point
(0, 0, 0.05). -/
def return_home_waypoints (cur_pos : V3) : List V3 :=
  [(cur_pos.1, cur_pos.2.1, HOVER_ALTITUDE), ((0 : ℝ), 0, HOVER_ALTITUDE),
   ((0 : ℝ), 0, 0.05)]

/-- Abort handling at the top of each loop iteration (lines 306-333): an
abort command is consumed at most once; it replaces the waypoints with the
3-point return path, resets the index, moves the virtual reference to the
current position, clears the waiting state and sets status to
returning_home. -/
def processAbort (inp : MissionInput) (s : MissionState) : MissionState :=
  if inp.cmd_abort && !s.abort_initiated then
    { s with
      status := MStatus.returning_home
      abort_initiated := true
      waypoints := return_home_waypoints inp.cur_pos
      current_wp_idx := 0
      virtual_pos := inp.cur_pos
      is_waiting := false
      wait_timer := 0 }
  else s

/-- Virtual-reference and waypoint advancement of one unpaused iteration
(lines 349-371): while waiting, accumulate dwell time and advance the index
once the dwell threshold and the 0.2 m drone tolerance are both met;
otherwise freeze on the goal within 0.05 m or move the reference toward the
goal at cruise speed. -/
def navStep (inp : MissionInput) (s : MissionState) : MissionState :=
  let goal := s.waypoints.getD s.current_wp_idx ((0 : ℝ), 0, 0)
  let vector_to_goal := vsub3 goal s.virtual_pos
  let dist_to_goal := norm3 vector_to_goal
  if s.is_waiting then
    let t := s.wait_timer + CTRL_TIMESTEP
    let drone_dist := norm3 (vsub3 inp.cur_pos s.virtual_pos)
    if WAIT_TIME_AT_CORNER ≤ t ∧ drone_dist < 0.2 then
      { s with
        is_waiting := false
        current_wp_idx := s.current_wp_idx + 1
        wait_timer := 0
        target_vel := ((0 : ℝ), 0, 0) }
    else { s with wait_timer := t, target_vel := ((0 : ℝ), 0, 0) }
  else if dist_to_goal < 0.05 then
    { s with is_waiting := true, target_vel := ((0 : ℝ), 0, 0), virtual_pos := goal }
  else
    let direction := smul3 dist_to_goal⁻¹ vector_to_goal
    { s with
      target_vel := smul3 CRUISE_SPEED direction
      virtual_pos := vadd3 s.virtual_pos (smul3 CTRL_TIMESTEP (smul3 CRUISE_SPEED direction)) }

/-- One iteration of the mission loop, returning the new state and the number
of physics sub-steps executed.  The command queue is polled first
(lines 306-333); then the loop busy-waits on the paused flag (lines 336-338)
BEFORE any navigation, control or physics code runs, so a tick spent paused
performs no navigation update and zero physics sub-steps; an unpaused tick
runs the navigation, the controller and SIM_STEPS physics sub-steps
(lines 340-392). -/
def missionTick (inp : MissionInput) (s : MissionState) : MissionState × ℕ :=
  let s1 := processAbort inp s
  if inp.paused then (s1, 0) else (navStep inp s1, SIM_STEPS)

/-- The mission loop (line 305): iterate while current_wp_idx <
len(waypoints), consuming one external input per tick. -/
def missionRun (s : MissionState) : List MissionInput → MissionState
| [] => s
| i :: t =>
    if s.current_wp_idx < s.waypoints.length
    then missionRun (missionTick i s).1 t else s

/-- Status assignment after the loop exits (lines 394-399): aborted when the
abort was consumed, otherwise completed. -/
def missionFinish (s : MissionState) : MissionState :=
  if s.abort_initiated then { s with status := MStatus.aborted }
  else if s.status ≠ MStatus.aborted then { s with status := MStatus.completed }
  else s

/-- Once the abort has been consumed, processAbort is the identity (the guard
requires not abort_initiated). -/
theorem processAbort_of_initiated (inp : MissionInput) (s : MissionState)
    (h : s.abort_initiated = true) : processAbort inp s = s := by
  simp [processAbort, h]

/-- Navigation never changes the waypoint list or the abort flag. -/
theorem navStep_preserves (inp : MissionInput) (s : MissionState) :
    (navStep inp s).abort_initiated = s.abort_initiated ∧
    (navStep inp s).waypoints = s.waypoints := by
  simp only [navStep]
  split_ifs <;> simp

/-- A tick after abort consumption keeps the abort flag and the waypoint
list. -/
theorem missionTick_preserves_abort (i : MissionInput) (s : MissionState)
    (h : s.abort_initiated = true) :
    (missionTick i s).1.abort_initiated = true ∧
    (missionTick i s).1.waypoints = s.waypoints := by
  simp only [missionTick, processAbort_of_initiated i s h]
  split_ifs
  · exact ⟨h, rfl⟩
  · exact ⟨(navStep_preserves i s).1.trans h, (navStep_preserves i s).2⟩

/-- Any run from a state with the abort flag set keeps the flag and the
waypoint list. -/
theorem missionRun_preserves_abort :
    ∀ (l : List MissionInput) (s : MissionState), s.abort_initiated = true →
      (missionRun s l).abort_initiated = true ∧
      (missionRun s l).waypoints = s.waypoints := by
  intro l
  induction l with
  | nil => intro s h; exact ⟨h, rfl⟩
  | cons i t ih =>
    intro s h
    simp only [missionRun]
    split_ifs with hidx
    · obtain ⟨h1, h2⟩ := missionTick_preserves_abort i s h
      obtain ⟨h3, h4⟩ := ih (missionTick i s).1 h1
      exact ⟨h3, h4.trans h2⟩
    · exact ⟨h, rfl⟩

/-- Claim C4: consuming an abort command while waypointIndex = k, for any
valid k, replaces the remaining waypoint sequence by exactly the 3 return
waypoints (current position at hover altitude, home at hover altitude, low
landing point) and resets the index; thereafter, for every continuation of
the mission, the waypoints stay that 3-point path and the terminal status
computed when the loop exits (once the landing tolerance lets the index pass
the last waypoint) is aborted, never completed. -/
theorem abort_replaces_path_terminal_aborted (s : MissionState) (inp : MissionInput)
    (k : ℕ) (hk : s.current_wp_idx = k) (hkv : k < s.waypoints.length)
    (hflag : s.abort_initiated = false) (hcmd : inp.cmd_abort = true) :
    (processAbort inp s).waypoints = return_home_waypoints inp.cur_pos ∧
    (processAbort inp s).waypoints.length = 3 ∧
    (processAbort inp s).current_wp_idx = 0 ∧
    (processAbort inp s).abort_initiated = true ∧
    (processAbort inp s).status = MStatus.returning_home ∧
    ∀ t : List MissionInput,
      (missionRun (processAbort inp s) t).abort_initiated = true ∧
      (missionRun (processAbort inp s) t).waypoints = return_home_waypoints inp.cur_pos ∧
      (missionFinish (missionRun (processAbort inp s) t)).status = MStatus.aborted ∧
      (missionFinish (missionRun (processAbort inp s) t)).status ≠ MStatus.completed := by
  have hpa : processAbort inp s =
      { s with
        status := MStatus.returning_home
        abort_initiated := true
        waypoints := return_home_waypoints inp.cur_pos
        current_wp_idx := 0
        virtual_pos := inp.cur_pos
        is_waiting := false
        wait_timer := 0 } := by
    simp [processAbort, hcmd, hflag]
  refine ⟨by rw [hpa], by rw [hpa]; rfl, by rw [hpa], by rw [hpa], by rw [hpa], ?_⟩
  intro t
  obtain ⟨h1, h2⟩ := missionRun_preserves_abort t (processAbort inp s) (by rw [hpa])
  refine ⟨h1, by rw [h2, hpa], ?_, ?_⟩
  · simp [missionFinish, h1]
  · simp [missionFinish, h1]

/-- Concrete mission state for the C4 witness: two waypoints remaining, index
0, no abort consumed yet. -/
def abortState : MissionState :=
  { waypoints := [((0 : ℝ), 0, 1), ((0 : ℝ), 0, 0.05)], current_wp_idx := 0,
    virtual_pos := ((0 : ℝ), 0, 0.1), target_vel := zeroV3, wait_timer := 0,
    is_waiting := false, abort_initiated := false, status := MStatus.flying }

/-- Concrete tick input delivering an abort at drone position (3, 4, 0.7). -/
def abortInput : MissionInput :=
  { cmd_abort := true, paused := false, cur_pos := ((3 : ℝ), 4, 0.7) }

/-- Witness for claim C4 at the concrete abort scenario. -/
theorem abort_replaces_path_terminal_aborted_witness :
    (processAbort abortInput abortState).waypoints
      = return_home_waypoints abortInput.cur_pos ∧
    (processAbort abortInput abortState).waypoints.length = 3 ∧
    (processAbort abortInput abortState).current_wp_idx = 0 ∧
    (processAbort abortInput abortState).abort_initiated = true ∧
    (processAbort abortInput abortState).status = MStatus.returning_home ∧
    ∀ t : List MissionInput,
      (missionRun (processAbort abortInput abortState) t).abort_initiated = true ∧
      (missionRun (processAbort abortInput abortState) t).waypoints
        = return_home_waypoints abortInput.cur_pos ∧
      (missionFinish (missionRun (processAbort abortInput abortState) t)).status
        = MStatus.aborted ∧
      (missionFinish (missionRun (processAbort abortInput abortState) t)).status
        ≠ MStatus.completed :=
  abort_replaces_path_terminal_aborted abortState abortInput 0 rfl
    (by simp [abortState]) rfl rfl

/-- Claim C5 (amended): while the paused flag is set the tick performs no
navigation, no waypoint or reference advancement AND no physics sub-steps
(the busy wait sits before the physics stepping); physics sub-steps
(SIM_STEPS of them) execute only on unpaused ticks. -/
theorem paused_tick_suspends_everything (s : MissionState) (inp : MissionInput) :
    (inp.paused = true → inp.cmd_abort = false → missionTick inp s = (s, 0)) ∧
    (inp.paused = false → (missionTick inp s).2 = SIM_STEPS) := by
  constructor
  · intro hp hc
    simp [missionTick, processAbort, hp, hc]
  · intro hp
    simp [missionTick, hp]

/-- Concrete paused mission state for the C5 counterexample. -/
def pauseState : MissionState :=
  { waypoints := [((0 : ℝ), 0, 1)], current_wp_idx := 0, virtual_pos := zeroV3,
    target_vel := zeroV3, wait_timer := 0, is_waiting := false,
    abort_initiated := false, status := MStatus.stalled }

/-- Concrete tick input with the paused flag set and no pending command. -/
def pauseInput : MissionInput :=
  { cmd_abort := false, paused := true, cur_pos := zeroV3 }

/-- Counterexample for claim C5: on a concrete paused tick the loop executes
0 physics sub-steps, not the SIM_STEPS = 5 sub-steps of a normal tick, so
physics stepping does NOT continue during a pause (the state is also fully
unchanged). -/
theorem paused_tick_physics_refuted :
    (missionTick pauseInput pauseState).2 = 0 ∧ 0 < SIM_STEPS ∧
    (missionTick pauseInput pauseState).2 ≠ SIM_STEPS ∧
    (missionTick pauseInput pauseState).1 = pauseState :=
  ⟨rfl, by decide, by decide, rfl⟩

/-- Witness for claim C5 (amended) at concrete paused and unpaused ticks. -/
theorem paused_tick_suspends_everything_witness :
    missionTick pauseInput pauseState = (pauseState, 0) ∧
    (missionTick { cmd_abort := false, paused := false, cur_pos := zeroV3 }
      pauseState).2 = SIM_STEPS :=
  ⟨(paused_tick_suspends_everything pauseState pauseInput).1 rfl rfl,
   (paused_tick_suspends_everything pauseState
     { cmd_abort := false, paused := false, cur_pos := zeroV3 }).2 rfl⟩

end
